import Mathlib

/-!
Verification development for the ByteWatch stremio addon
(progressive scatter-gather stream extraction engine).

The definitions below are shallow embeddings of the JavaScript source:

* `index.js` — progressive aggregator (`extractStreamsProgressively`),
  result presenter (`formatStreams`), result/failure caches,
  `getMovieStreams` / `getSeriesStreams`, and the static `SOURCES` table;
* `unified-extractor.js` — the extractor registry (`extractors`), the
  manifest resolver (`parseM3U8PlaylistImmediate`) and the task driver
  (`runExtractor`).

JavaScript objects used as string-keyed maps are embedded as association
lists in insertion order (`Object.entries` order for string keys);
assignment to an existing key updates the value in place, assignment to a
fresh key appends, which models last-write-wins collisions.
-/

namespace ByteWatch

/-- A `StreamMap` (display key → URL), embedded as an association list in
JavaScript object insertion order. -/
abbrev StreamMap := List (String × String)

/-- Single JavaScript object property assignment `m[k] = v`: overwrite in
place when the key exists, append otherwise. -/
def jsSet (m : StreamMap) (k v : String) : StreamMap :=
  if m.any (fun p => p.1 == k) then
    m.map (fun p => if p.1 == k then (k, v) else p)
  else
    m ++ [(k, v)]

/-- Quality label computation of `parseM3U8PlaylistImmediate`
(unified-extractor.js lines 85-97).

`resolution` models `playlist.attributes?.RESOLUTION` reduced to its
`height` field: `some h` when the RESOLUTION attribute object is present
(an object is always truthy in JavaScript). `bandwidth` models
`playlist.attributes?.BANDWIDTH`. The JavaScript guard
`else if (bandwidth)` tests numeric truthiness, so a present bandwidth of
`0` fails the guard and the label stays `"Unknown Quality"`. -/
def qualityLabel (resolution : Option Nat) (bandwidth : Option Nat) : String :=
  match resolution with
  | some height =>
    if height ≥ 1080 then "1080p"
    else if height ≥ 720 then "720p"
    else if height ≥ 480 then "480p"
    else "360p"
  | none =>
    match bandwidth with
    | some b =>
      if b = 0 then "Unknown Quality"
      else if b ≥ 3000000 then "1080p"
      else if b ≥ 1500000 then "720p"
      else if b ≥ 800000 then "480p"
      else "360p"
    | none => "Unknown Quality"

/-- The quality-label rule exactly as the specification words it: a
*present* bandwidth is classified by thresholds unconditionally
(`bandwidth >= 800000` failing still gives `"360p"`). Written from the
spec, to be compared with `qualityLabel` (from the source). -/
def qualityLabelSpec (resolution : Option Nat) (bandwidth : Option Nat) : String :=
  match resolution with
  | some height =>
    if height ≥ 1080 then "1080p"
    else if height ≥ 720 then "720p"
    else if height ≥ 480 then "480p"
    else "360p"
  | none =>
    match bandwidth with
    | some b =>
      if b ≥ 3000000 then "1080p"
      else if b ≥ 1500000 then "720p"
      else if b ≥ 800000 then "480p"
      else "360p"
    | none => "Unknown Quality"

/-- The quality-label rule as amended: the bandwidth branch applies only
to a present *and nonzero* bandwidth (JavaScript numeric truthiness);
a present zero bandwidth yields `"Unknown Quality"`. -/
def qualityLabelSpecAmended (resolution : Option Nat) (bandwidth : Option Nat) : String :=
  match resolution with
  | some height =>
    if height ≥ 1080 then "1080p"
    else if height ≥ 720 then "720p"
    else if height ≥ 480 then "480p"
    else "360p"
  | none =>
    match bandwidth with
    | some b =>
      if b ≠ 0 then
        if b ≥ 3000000 then "1080p"
        else if b ≥ 1500000 then "720p"
        else if b ≥ 800000 then "480p"
        else "360p"
      else "Unknown Quality"
    | none => "Unknown Quality"

/-- Models the JavaScript test `s.startsWith(pre)`. -/
def jsStartsWith (s pre : String) : Bool := pre.toList.isPrefixOf s.toList

/-- Helper for `jsSplit`: splits a character list at every occurrence of
the separator, keeping empty pieces, the accumulator holding the current
piece reversed. -/
def splitCharAux (sep : Char) : List Char → List Char → List (List Char)
  | [], acc => [acc.reverse]
  | c :: cs, acc =>
    if c = sep then acc.reverse :: splitCharAux sep cs []
    else splitCharAux sep cs (c :: acc)

/-- Models the JavaScript call `s.split(sep)` for a one-character
separator: every occurrence splits, empty pieces are kept. -/
def jsSplit (s : String) (sep : Char) : List String :=
  (splitCharAux sep s.toList []).map String.mk

/-- Models the JavaScript call `parts.join(sep)`. -/
def jsJoin (sep : String) : List String → String
  | [] => ""
  | [x] => x
  | x :: y :: xs => x ++ sep ++ jsJoin sep (y :: xs)

/-- Scheme of a URL string: the characters before the first `:`.
Models the scheme part of `new URL(u)` for the well-formed absolute URLs
the resolver is handed. -/
def urlScheme (u : String) : String := String.mk (u.toList.takeWhile (fun c => c ≠ ':'))

/-- Models `new URL(u).protocol`: the scheme followed by `:`. -/
def urlProtocol (u : String) : String := urlScheme u ++ ":"

/-- Models `new URL(u).host` for well-formed `http(s)` URLs without
userinfo: the authority between `scheme://` and the next `/` (the port,
when present, is part of `host`). -/
def urlHost (u : String) : String :=
  String.mk (((u.toList.drop ((urlScheme u).toList.length + 3))).takeWhile (fun c => c ≠ '/'))

/-- Rendition-URI resolution of `parseM3U8PlaylistImmediate`
(unified-extractor.js lines 99-108): a URI starting with the literal
string `"http"` is returned unchanged; otherwise a URI starting with `/`
is prefixed with `protocol//host` of the fetch URL; otherwise the URI is
joined to the directory of the fetch URL
(`playlistUrl.split('/').slice(0, -1).join('/')`). -/
def resolveStreamUrl (playlistUrl uri : String) : String :=
  if jsStartsWith uri "http" then uri
  else if jsStartsWith uri "/" then
    urlProtocol playlistUrl ++ "//" ++ urlHost playlistUrl ++ uri
  else
    jsJoin "/" ((jsSplit playlistUrl '/').dropLast) ++ "/" ++ uri

/-- Whether a URI string has a URI scheme in the RFC 3986 sense: a
nonempty leading run `ALPHA *( ALPHA / DIGIT / "+" / "-" / "." )`
terminated by `:`. Written from the specification words "absolute (has
scheme)". -/
def hasScheme (u : String) : Bool :=
  match u.toList with
  | [] => false
  | c :: _ =>
    c.isAlpha &&
    (let pre := u.toList.takeWhile (fun ch => ch ≠ ':')
     decide (pre.length < u.toList.length) &&
     pre.all (fun ch => ch.isAlphanum || ch = '+' || ch = '-' || ch = '.'))

/-- One rendition descriptor of the parsed manifest
(`parser.manifest.playlists[i]`): the optional RESOLUTION height, the
optional BANDWIDTH, and the rendition URI. -/
structure Rendition where
  resolutionHeight : Option Nat
  bandwidth : Option Nat
  uri : String
deriving Repr, DecidableEq

/-- The parsed manifest as produced by `m3u8-parser`: `playlists` is the
(possibly empty) list of rendition descriptors; an empty list also models
a manifest with no `playlists` array (a media playlist). -/
structure ParsedManifest where
  playlists : List Rendition
deriving Repr, DecidableEq

/-- The manifest resolver `parseM3U8PlaylistImmediate`
(unified-extractor.js lines 58-123). The fallible fetch-and-parse of the
manifest text is embedded as the `Except` argument: `.error` models any
fetch or parse failure caught by the surrounding `try`/`catch`, `.ok`
carries the parsed manifest. A master playlist yields one
`"<source> <label>"` entry per rendition (duplicate labels collapse,
last write wins, via `jsSet`); a media playlist yields the single entry
`"<source> Link" → playlistUrl`; any failure yields the same single-entry
fallback. -/
def parseM3U8PlaylistImmediate (fetchResult : Except String ParsedManifest)
    (playlistUrl source : String) : StreamMap :=
  match fetchResult with
  | .error _ => [(source ++ " Link", playlistUrl)]
  | .ok manifest =>
    if manifest.playlists.length > 0 then
      manifest.playlists.foldl
        (fun acc p =>
          jsSet acc (source ++ " " ++ qualityLabel p.resolutionHeight p.bandwidth)
            (resolveStreamUrl playlistUrl p.uri))
        []
    else
      [(source ++ " Link", playlistUrl)]

/-- Claim C2 counterexample: a rendition carrying no RESOLUTION and
`BANDWIDTH=0` (a present bandwidth). The code's truthiness guard
`else if (bandwidth)` rejects `0`, producing `"Unknown Quality"`, while
the claim's rule ("if a bandwidth is present, ... else \"360p\"")
requires `"360p"`. -/
theorem C2_counterexample :
    qualityLabel none (some 0) = "Unknown Quality" ∧
    qualityLabelSpec none (some 0) = "360p" ∧
    qualityLabel none (some 0) ≠ qualityLabelSpec none (some 0) := by
  refine ⟨rfl, rfl, ?_⟩
  decide

/-- Claim C2, amended: the quality label is computed from the resolution
height by the stated thresholds when a resolution is present; otherwise
from the bandwidth by the stated thresholds when a *nonzero* bandwidth is
present; otherwise (no resolution and no nonzero bandwidth) it is
`"Unknown Quality"`. The source computation agrees with the amended rule
on all inputs. -/
theorem C2_quality_label_amended :
    ∀ (resolution bandwidth : Option Nat),
      qualityLabel resolution bandwidth = qualityLabelSpecAmended resolution bandwidth := by
  intro resolution bandwidth
  cases resolution with
  | some h => rfl
  | none =>
    cases bandwidth with
    | none => rfl
    | some b =>
      simp only [qualityLabel, qualityLabelSpecAmended]
      by_cases hb : b = 0 <;> simp [hb]

/-- Claim C3 counterexample: the URI `ftp://x/v.m3u8` is absolute (it has
the scheme `ftp`), yet the code's absoluteness test is
`startsWith('http')`, so the URI is not left unchanged: it is joined to
the directory of the fetch URL instead. -/
theorem C3_counterexample :
    hasScheme "ftp://x/v.m3u8" = true ∧
    resolveStreamUrl "https://h.test/a/b/master.m3u8" "ftp://x/v.m3u8"
      = "https://h.test/a/b/ftp://x/v.m3u8" ∧
    resolveStreamUrl "https://h.test/a/b/master.m3u8" "ftp://x/v.m3u8"
      ≠ "ftp://x/v.m3u8" := by
  refine ⟨by decide, by decide, by decide⟩

/-- Claim C3, amended: a URI starting with the literal string `"http"`
(rather than: any URI that has a scheme) is left unchanged; a URI
starting with `"/"` becomes the scheme and host of the fetch URL followed
by that path; any other URI — including absolute URIs with a non-http
scheme — becomes the directory of the fetch URL joined with it. The two
concrete examples of the claim hold as stated. -/
theorem C3_resolution_amended :
    (∀ p uri, jsStartsWith uri "http" = true → resolveStreamUrl p uri = uri) ∧
    (∀ p uri, jsStartsWith uri "http" = false → jsStartsWith uri "/" = true →
      resolveStreamUrl p uri = urlProtocol p ++ "//" ++ urlHost p ++ uri) ∧
    (∀ p uri, jsStartsWith uri "http" = false → jsStartsWith uri "/" = false →
      resolveStreamUrl p uri
        = jsJoin "/" ((jsSplit p '/').dropLast) ++ "/" ++ uri) ∧
    resolveStreamUrl "https://h.test/a/b/master.m3u8" "video/1.m3u8"
      = "https://h.test/a/b/video/1.m3u8" ∧
    resolveStreamUrl "https://h.test/a/b/master.m3u8" "/v/1.m3u8"
      = "https://h.test/v/1.m3u8" := by
  refine ⟨?_, ?_, ?_, by decide, by decide⟩
  · intro p uri h
    simp [resolveStreamUrl, h]
  · intro p uri h1 h2
    simp [resolveStreamUrl, h1, h2]
  · intro p uri h1 h2
    simp [resolveStreamUrl, h1, h2]

/-- Witness for `C3_resolution_amended` at concrete inputs: each branch
hypothesis discharged on a concrete fetch URL / URI pair. -/
theorem C3_resolution_amended_witness :
    resolveStreamUrl "https://h.test/a/b/master.m3u8" "http://cdn.test/x.m3u8"
      = "http://cdn.test/x.m3u8" ∧
    resolveStreamUrl "https://h.test/a/b/master.m3u8" "/v/1.m3u8"
      = urlProtocol "https://h.test/a/b/master.m3u8" ++ "//"
        ++ urlHost "https://h.test/a/b/master.m3u8" ++ "/v/1.m3u8" ∧
    resolveStreamUrl "https://h.test/a/b/master.m3u8" "video/1.m3u8"
      = jsJoin "/" ((jsSplit "https://h.test/a/b/master.m3u8" '/').dropLast)
        ++ "/" ++ "video/1.m3u8" :=
  ⟨C3_resolution_amended.1 _ _ (by decide),
   C3_resolution_amended.2.1 _ _ (by decide) (by decide),
   C3_resolution_amended.2.2.1 _ _ (by decide) (by decide)⟩

/-- Claim C4: for every manifest URL and provider name, when the manifest
fetch or parse fails for any reason (the `catch` branch of
`parseM3U8PlaylistImmediate`), the resolver does not throw outward but
returns exactly the one-entry map `"<provider> Link" → original URL`. -/
theorem C4_parse_failure_fallback :
    ∀ (e : String) (playlistUrl source : String),
      parseM3U8PlaylistImmediate (.error e) playlistUrl source
        = [(source ++ " Link", playlistUrl)] := by
  intro e playlistUrl source
  rfl

/-- One entry of the static provider table `SOURCES` (index.js lines
26-37): name, per-provider timeout in milliseconds, priority. -/
structure Source where
  name : String
  timeout : Nat
  priority : Nat
deriving Repr, DecidableEq

/-- The static provider table `SOURCES` of index.js lines 26-37, in
source order, commented-out entries omitted. -/
def SOURCES : List Source :=
  [⟨"vidlink", 20000, 2⟩,
   ⟨"wooflix", 20000, 3⟩,
   ⟨"vidfast", 20000, 1⟩,
   ⟨"vilora", 20000, 7⟩,
   ⟨"vidify", 20000, 9⟩,
   ⟨"vidjoy", 20000, 10⟩]

/-- The eligible provider set of a run (index.js line 63):
`SOURCES.filter(source => !recentFailures.includes(source.name))`. -/
def activeSources (recentFailures : List String) : List Source :=
  SOURCES.filter (fun src => !(recentFailures.contains src.name))

/-- The media request kind (`type === 'movie'` against everything else,
which the handlers call with `'series'`). -/
inductive MediaType where
  | movie
  | series
deriving Repr, DecidableEq

/-- The `extractors` URL-builder table of unified-extractor.js lines
7-49 (commented-out entries omitted): provider name to player-page URL,
`none` when the name has no entry. -/
def extractorUrl (source : String) (type : MediaType) (id season episode : String) :
    Option String :=
  match source with
  | "wooflix" =>
    some (match type with
      | .movie => "https://wooflixtv.co/watch/movie/" ++ id
      | .series => "https://wooflixtv.co/watch/tv/" ++ id ++ "?season=" ++ season
          ++ "&episode=" ++ episode)
  | "vidjoy" =>
    some (match type with
      | .movie => "https://vidjoy.pro/embed/movie/" ++ id
      | .series => "https://vidjoy.pro/embed/tv/" ++ id ++ "/" ++ season ++ "/" ++ episode)
  | "vidify" =>
    some (match type with
      | .movie => "https://vidify.top/embed/movie/" ++ id
      | .series => "https://vidify.top/embed/tv/" ++ id ++ "/" ++ season ++ "/" ++ episode)
  | "vidfast" =>
    some (match type with
      | .movie => "https://vidfast.pro/movie/" ++ id
      | .series => "https://vidfast.pro/tv/" ++ id ++ "/" ++ season ++ "/" ++ episode)
  | "vidlink" =>
    some (match type with
      | .movie => "https://vidlink.pro/movie/" ++ id
      | .series => "https://vidlink.pro/tv/" ++ id ++ "/" ++ season ++ "/" ++ episode)
  | "mappletv" =>
    some (match type with
      | .movie => "https://mappletv.uk/watch/movie/" ++ id
      | .series => "https://mappletv.uk/watch/tv/" ++ id ++ "-" ++ season ++ "-" ++ episode)
  | _ => none

/-- The guard and URL construction at the head of `runExtractor`
(unified-extractor.js lines 126-130), before any browser work: a source
absent from `extractors` makes the async function reject with
`Unknown source: <source>`; otherwise the player-page URL is built. -/
def runExtractorStart (source : String) (type : MediaType) (imdbId season episode : String) :
    Except String String :=
  match extractorUrl source type imdbId season episode with
  | none => .error ("Unknown source: " ++ source)
  | some u => .ok u

/-- The settlement of one extraction promise as seen by the aggregator:
`.ok m` models the racing promise fulfilling with the extractor's map
`m`, `.error msg` models it rejecting (extractor throw, or the
per-provider timeout of index.js lines 91-93). -/
abbrev TaskResult := Except String StreamMap

/-- The per-task status the `.then`/`.catch` lowering of index.js lines
96-110 attaches: nonempty result maps to `success`, empty (or missing)
result to `empty`, a rejection to `failed`. -/
inductive SettleStatus where
  | success
  | empty
  | failed
deriving Repr, DecidableEq

/-- Status computation of index.js lines 96-110. -/
def settleStatus : TaskResult → SettleStatus
  | .ok m => if m.length > 0 then .success else .empty
  | .error _ => .failed

/-- The `newFailures` list the settlement loop of index.js lines
116-133 collects: the names (in settlement order) of exactly those
sources whose lowered status is `failed`. -/
def newFailures (results : List (String × TaskResult)) : List String :=
  (results.filter (fun r => settleStatus r.2 == SettleStatus.failed)).map (fun r => r.1)

/-- The trimmed failure list `[...recentFailures, ...newFailures].slice(-3)`
of index.js line 137: `Array.slice(-3)` keeps the last three elements
(the whole array when it is shorter). -/
def allFailures (old nw : List String) : List String :=
  let l := old ++ nw
  l.drop (l.length - 3)

/-- The failure-cache write of index.js lines 136-139: the entry is
written (with the trimmed list) only when the run produced at least one
new failure; `none` models the absent write. -/
def updateFailureCache (old nw : List String) : Option (List String) :=
  if nw.length > 0 then some (allFailures old nw) else none

/-- Claim C5: a provider name is in `newFailures` exactly when its task
settled by rejection (extractor error or timeout); a provider whose task
fulfilled with an empty map is not recorded; and an eligible provider
recorded in neither the old record nor `newFailures` is absent from the
persisted record, hence eligible again next run. -/
theorem C5_new_failures_exact (results : List (String × TaskResult)) (s : String) :
    (s ∈ newFailures results ↔ ∃ e, (s, Except.error e) ∈ results) ∧
    (∀ old : List String, s ∉ old → s ∉ newFailures results →
      s ∉ allFailures old (newFailures results)) := by
  constructor
  · constructor
    · intro hs
      simp only [newFailures, List.mem_map, List.mem_filter] at hs
      obtain ⟨⟨s', r⟩, ⟨hmem, hst⟩, hfst⟩ := hs
      subst hfst
      cases r with
      | ok m =>
        exfalso
        simp only [settleStatus] at hst
        split at hst <;> simp_all
      | error e => exact ⟨e, hmem⟩
    · intro ⟨e, hmem⟩
      simp only [newFailures, List.mem_map, List.mem_filter]
      exact ⟨(s, Except.error e), ⟨hmem, by simp [settleStatus]⟩, rfl⟩
  · intro old hold hnew hmem
    have : s ∈ old ++ newFailures results := by
      have hsub : List.Sublist (allFailures old (newFailures results))
          (old ++ newFailures results) := List.drop_sublist _ _
      exact hsub.mem hmem
    rcases List.mem_append.mp this with h | h
    · exact hold h
    · exact hnew h

/-- Witness for `C5_new_failures_exact`: a run in which `wooflix` timed
out, `vidfast` succeeded and `vidify` fulfilled with an empty map records
exactly `wooflix`, and `vidify` stays out of the persisted record. -/
theorem C5_new_failures_exact_witness :
    ("vidify" ∉ (["vidlink"] : List String)) ∧
    ("vidify" ∉ newFailures
        [("wooflix", Except.error "wooflix timeout after 20000ms"),
         ("vidfast", Except.ok [("vidfast 1080p", "https://v.test/f.m3u8")]),
         ("vidify", Except.ok ([] : StreamMap))]) ∧
    ("vidify" ∉ allFailures ["vidlink"]
        (newFailures
          [("wooflix", Except.error "wooflix timeout after 20000ms"),
           ("vidfast", Except.ok [("vidfast 1080p", "https://v.test/f.m3u8")]),
           ("vidify", Except.ok ([] : StreamMap))])) :=
  ⟨by decide, by decide,
   (C5_new_failures_exact
      [("wooflix", Except.error "wooflix timeout after 20000ms"),
       ("vidfast", Except.ok [("vidfast 1080p", "https://v.test/f.m3u8")]),
       ("vidify", Except.ok ([] : StreamMap))] "vidify").2
     ["vidlink"] (by decide) (by decide)⟩

/-- Claim C6 counterexample: a run that produced no new failures writes
nothing to the Failure Memory — the write is guarded by
`if (newFailures.length > 0)` — contradicting "written once per run
(even when there are no new failures in that run)". -/
theorem C6_counterexample :
    updateFailureCache ["wooflix"] [] = none := by
  rfl

/-- Claim C6, amended: the Failure Memory entry for the request key is
written after all tasks settle only in runs that produced at least one
new failure, and then exactly once, with the trimmed concatenation; a
run with no new failures performs no write. -/
theorem C6_failure_write_amended (old nw : List String) :
    (updateFailureCache old nw = none ↔ nw = []) ∧
    (nw ≠ [] → updateFailureCache old nw = some (allFailures old nw)) := by
  constructor
  · simp only [updateFailureCache]
    split <;> rename_i h
    · simp only [List.length_pos] at h
      simp [h]
    · simp only [Nat.not_lt, Nat.le_zero, List.length_eq_zero] at h
      simp [h]
  · intro hne
    simp [updateFailureCache, List.length_pos.mpr hne]

/-- Witness for `C6_failure_write_amended`: with old record `[wooflix]`
and new failures `[vilora]` the write happens and stores the trimmed
list. -/
theorem C6_failure_write_amended_witness :
    updateFailureCache ["wooflix"] ["vilora"]
      = some (allFailures ["wooflix"] ["vilora"]) :=
  (C6_failure_write_amended ["wooflix"] ["vilora"]).2 (by decide)

/-- Claim C7: the persisted failure record is the concatenation of the
existing record with the new failures trimmed to its last three entries:
its length is `min 3` of the total, and what is evicted is exactly a
prefix (the oldest entries), so the three most recent names are kept. -/
theorem C7_failure_record_bound (old nw : List String) :
    (allFailures old nw).length = min 3 (old ++ nw).length ∧
    (old ++ nw).take ((old ++ nw).length - 3) ++ allFailures old nw = old ++ nw := by
  constructor
  · simp only [allFailures, List.length_drop]
    omega
  · simp only [allFailures]
    exact List.take_append_drop _ _

/-- Claim C10: `vilora` is listed in the static source table but has no
entry in the extractor URL-builder table, so its extraction task rejects
with `Unknown source: vilora` before any browser work; with an empty
failure record it is eligible, and a run containing that rejection
records it as a failed provider. -/
theorem C10_vilora_unknown_source :
    "vilora" ∈ SOURCES.map Source.name ∧
    (∀ t i s e, extractorUrl "vilora" t i s e = none) ∧
    (∀ t i s e, runExtractorStart "vilora" t i s e
      = .error "Unknown source: vilora") ∧
    "vilora" ∈ (activeSources []).map Source.name ∧
    settleStatus (Except.error "Unknown source: vilora") = .failed ∧
    "vilora" ∈ newFailures [("vilora", Except.error "Unknown source: vilora")] := by
  refine ⟨by decide, fun t i s e => rfl, fun t i s e => rfl, by decide, rfl, by decide⟩

/-- Helper for `jsIncludes`: whether `pat` occurs as a contiguous run
inside the list. -/
def infixOfAux (pat : List Char) : List Char → Bool
  | [] => pat.isEmpty
  | c :: cs => pat.isPrefixOf (c :: cs) || infixOfAux pat cs

/-- Models the JavaScript test `s.includes(pat)`: substring
containment. -/
def jsIncludes (s pat : String) : Bool := infixOfAux pat.toList s.toList

/-- The OMDB metadata the presenter consumes: optional title and year
(`metadata.Title`, `metadata.Year`). -/
structure Metadata where
  Title : Option String
  Year : Option String
deriving Repr, DecidableEq

/-- Models the JavaScript defaulting `o || d` on an optional string: a
missing or empty (falsy) string yields the default. -/
def jsOrDefault (o : Option String) (d : String) : String :=
  match o with
  | some s => if s = "" then d else s
  | none => d

/-- The `displayTitle` computation of `formatStreams` (index.js lines
152-154): `season ? "<title> S<season>E<episode>" : "<title> (<year>)"`,
where `season` is truthy when present and nonempty. A missing episode
interpolates as the string `undefined`, as a JavaScript template literal
would render it. -/
def displayTitle (metadata : Metadata) (season episode : Option String) : String :=
  let title := jsOrDefault metadata.Title "Unknown"
  let year := jsOrDefault metadata.Year "Unknown"
  match season with
  | some s =>
    if s = "" then title ++ " (" ++ year ++ ")"
    else title ++ " S" ++ s ++ "E" ++ episode.getD "undefined"
  | none => title ++ " (" ++ year ++ ")"

/-- The `getQualityWeight` ranking of index.js lines 168-173: rank by
label substring, `"1080p"` before `"720p"` before `"480p"` before
everything else. -/
def getQualityWeight (name : String) : Nat :=
  if jsIncludes name "1080p" then 1
  else if jsIncludes name "720p" then 2
  else if jsIncludes name "480p" then 3
  else 4

/-- The display-name decoration of index.js lines 177-181. -/
def decorateName (name : String) : String :=
  if jsIncludes name "1080p" then "🔥 " ++ name
  else if jsIncludes name "720p" then "⭐ " ++ name
  else if jsIncludes name "480p" then "📺 " ++ name
  else if jsIncludes name "hindi" || jsIncludes name "Hindi" then "🇮🇳 " ++ name
  else "🎥 " ++ name

/-- One formatted output entry of `formatStreams`. `bingeGroup` models
`behaviorHints.bingeGroup`, carried only by non-sentinel entries
(`behaviorHints.notWebReady` is the constant `false` and is not
modelled). -/
structure FormattedStream where
  name : String
  url : String
  description : String
  bingeGroup : Option String
deriving Repr, DecidableEq

/-- The comparator of the sort at index.js lines 167-174 as a total
preorder: `getQualityWeight(a) - getQualityWeight(b)` sorts ascending by
weight, and the JavaScript engine's sort is stable. -/
def streamLE (a b : String × String) : Bool :=
  decide (getQualityWeight a.1 ≤ getQualityWeight b.1)

/-- The stable ascending-by-weight sort `formatStreams` applies to the
entries of the stream map. -/
def sortStreams (entries : StreamMap) : StreamMap := entries.mergeSort streamLE

/-- One non-sentinel output entry (index.js lines 176-188). -/
def formatEntry (metadata : Metadata) (season episode : Option String)
    (p : String × String) : FormattedStream :=
  { name := decorateName p.1
    url := p.2
    description := displayTitle metadata season episode
    bingeGroup := some (jsOrDefault metadata.Title "Unknown" ++ "-"
      ++ jsOrDefault metadata.Year "Unknown") }

/-- The sentinel entry returned for an empty or missing stream map
(index.js lines 156-164). -/
def unavailableEntry (dt : String) : FormattedStream :=
  { name := "❌ No Streams Available"
    url := "https://example.com/unavailable"
    description := "No working streams found for " ++ dt
      ++ ". Sources may be temporarily down."
    bingeGroup := none }

/-- The result presenter `formatStreams` (index.js lines 151-189):
an empty or missing map yields the single sentinel entry; otherwise the
entries are stably sorted ascending by quality weight and formatted. -/
def formatStreams (streams : Option StreamMap) (metadata : Metadata)
    (season episode : Option String) : List FormattedStream :=
  let dt := displayTitle metadata season episode
  match streams with
  | none => [unavailableEntry dt]
  | some entries =>
    if entries.length = 0 then [unavailableEntry dt]
    else (sortStreams entries).map (formatEntry metadata season episode)

/-- The comparator `streamLE` is transitive. -/
theorem streamLE_trans (a b c : String × String) :
    streamLE a b → streamLE b c → streamLE a c := by
  simp only [streamLE, decide_eq_true_eq]
  omega

/-- The comparator `streamLE` is total. -/
theorem streamLE_total (a b : String × String) :
    streamLE a b || streamLE b a := by
  simp only [streamLE]
  by_cases h : getQualityWeight a.1 ≤ getQualityWeight b.1
  · simp [h]
  · simp [Nat.le_of_lt (Nat.lt_of_not_le h)]

/-- Entries filtered to one fixed weight are pairwise `streamLE`. -/
theorem filter_weight_pairwise (l : StreamMap) (w : Nat) :
    (l.filter (fun a => getQualityWeight a.1 == w)).Pairwise
      (fun a b => streamLE a b = true) := by
  rw [List.pairwise_iff_forall_sublist]
  intro a b hsub
  have ha : a ∈ l.filter (fun a => getQualityWeight a.1 == w) :=
    hsub.mem (by simp)
  have hb : b ∈ l.filter (fun a => getQualityWeight a.1 == w) :=
    hsub.mem (by simp)
  have ha' := (List.mem_filter.mp ha).2
  have hb' := (List.mem_filter.mp hb).2
  simp only [beq_iff_eq] at ha' hb'
  simp [streamLE, ha', hb']

/-- Stability of the presenter's sort: for every weight, the entries of
that weight appear in the sorted list exactly in their original order. -/
theorem sortStreams_filter_stable (l : StreamMap) (w : Nat) :
    (sortStreams l).filter (fun a => getQualityWeight a.1 == w)
      = l.filter (fun a => getQualityWeight a.1 == w) := by
  have hsub1 : List.Sublist (l.filter (fun a => getQualityWeight a.1 == w))
      (sortStreams l) :=
    List.sublist_mergeSort streamLE_trans streamLE_total
      (filter_weight_pairwise l w) (List.filter_sublist l)
  have hsub2 : List.Sublist (l.filter (fun a => getQualityWeight a.1 == w))
      ((sortStreams l).filter (fun a => getQualityWeight a.1 == w)) := by
    have hstep := hsub1.filter (fun a => getQualityWeight a.1 == w)
    have heq : ((l.filter (fun a => getQualityWeight a.1 == w)).filter
        (fun a => getQualityWeight a.1 == w))
        = l.filter (fun a => getQualityWeight a.1 == w) :=
      List.filter_eq_self.mpr (fun a ha => (List.mem_filter.mp ha).2)
    rwa [heq] at hstep
  have hperm : List.Perm ((sortStreams l).filter (fun a => getQualityWeight a.1 == w))
      (l.filter (fun a => getQualityWeight a.1 == w)) :=
    (List.mergeSort_perm l streamLE).filter _
  exact (hsub2.eq_of_length hperm.length_eq.symm).symm

/-- Claim C9: the Result Presenter is a pure function that returns a
non-empty list: the sentinel entry exactly when the map is missing or
empty, and otherwise one formatted entry per map key, stably sorted
ascending by the quality weight derived from label substrings
(`"1080p"` before `"720p"` before `"480p"` before all others, ties in
original map order). -/
theorem C9_presenter :
    (∀ streams metadata season episode,
      formatStreams streams metadata season episode ≠ []) ∧
    (∀ metadata season episode,
      formatStreams none metadata season episode
        = [unavailableEntry (displayTitle metadata season episode)]) ∧
    (∀ metadata season episode,
      formatStreams (some []) metadata season episode
        = [unavailableEntry (displayTitle metadata season episode)]) ∧
    (∀ metadata season episode (l : StreamMap), l ≠ [] →
      formatStreams (some l) metadata season episode
        = (sortStreams l).map (formatEntry metadata season episode)) ∧
    (∀ l : StreamMap, List.Perm (sortStreams l) l) ∧
    (∀ l : StreamMap, (sortStreams l).Pairwise
      (fun a b => getQualityWeight a.1 ≤ getQualityWeight b.1)) ∧
    (∀ (l : StreamMap) (w : Nat),
      (sortStreams l).filter (fun a => getQualityWeight a.1 == w)
        = l.filter (fun a => getQualityWeight a.1 == w)) := by
  refine ⟨?_, fun _ _ _ => rfl, fun _ _ _ => rfl, ?_, ?_, ?_, sortStreams_filter_stable⟩
  · intro streams metadata season episode
    cases streams with
    | none => simp [formatStreams]
    | some entries =>
      simp only [formatStreams]
      split
      · simp
      · rename_i hlen
        have : entries ≠ [] := by
          intro h
          exact hlen (by simp [h])
        intro hmap
        have hl : ((sortStreams entries).map
            (formatEntry metadata season episode)).length = entries.length := by
          simp [sortStreams]
        rw [hmap] at hl
        exact this (List.length_eq_zero.mp hl.symm)
  · intro metadata season episode l hne
    simp only [formatStreams]
    rw [if_neg (by simpa using hne)]
  · intro l
    exact List.mergeSort_perm l streamLE
  · intro l
    have h := List.sorted_mergeSort streamLE_trans streamLE_total l
    exact h.imp (fun hab => by simpa [streamLE] using hab)

/-- Witness for `C9_presenter` at a concrete two-entry map with the
non-emptiness hypothesis discharged. -/
theorem C9_presenter_witness :
    ([("wooflix 720p", "https://w.test/720.m3u8"),
      ("vidfast 1080p", "https://v.test/1080.m3u8")] : StreamMap) ≠ [] ∧
    formatStreams
        (some [("wooflix 720p", "https://w.test/720.m3u8"),
               ("vidfast 1080p", "https://v.test/1080.m3u8")])
        ⟨some "Inception", some "2010"⟩ none none
      = (sortStreams
          [("wooflix 720p", "https://w.test/720.m3u8"),
           ("vidfast 1080p", "https://v.test/1080.m3u8")]).map
          (formatEntry ⟨some "Inception", some "2010"⟩ none none) :=
  ⟨by decide,
   C9_presenter.2.2.2.1 ⟨some "Inception", some "2010"⟩ none none _ (by decide)⟩

/-- The stream result cache, embedded as an association list from
normalized request key to the cached `StreamMap`. -/
abbrev StreamCache := List (String × StreamMap)

/-- A `NodeCache.set` write on the stream result cache. -/
def cacheSet (cache : StreamCache) (k : String) (v : StreamMap) : StreamCache :=
  if cache.any (fun p => p.1 == k) then
    cache.map (fun p => if p.1 == k then (k, v) else p)
  else
    cache ++ [(k, v)]

/-- Outcome of one request handler run: the formatted streams returned
to the caller, whether `extractStreamsProgressively` (and so any
extraction task) was invoked, and the result cache afterwards. -/
structure RequestOutcome where
  streams : List FormattedStream
  extractorInvoked : Bool
  cacheAfter : StreamCache
deriving Repr, DecidableEq

/-- The movie handler `getMovieStreams` (index.js lines 191-214): cache
read-through before any extraction; on a hit the cached map is formatted
and returned with no provider work; on a miss the aggregation result
(`extractResult`, the value `extractStreamsProgressively` would
produce) is formatted, and cached only when non-empty, under the key
`movie:<imdbId>` (TTL 7200 s, not modelled). -/
def getMovieStreams (cache : StreamCache) (imdbId : String) (metadata : Metadata)
    (extractResult : StreamMap) : RequestOutcome :=
  let cacheKey := "movie:" ++ imdbId
  match List.lookup cacheKey cache with
  | some cached => ⟨formatStreams (some cached) metadata none none, false, cache⟩
  | none =>
    ⟨formatStreams (some extractResult) metadata none none, true,
      if extractResult.length > 0 then cacheSet cache cacheKey extractResult else cache⟩

/-- The series handler `getSeriesStreams` (index.js lines 216-244),
analogous to the movie handler with key
`series:<imdbId>:<season>:<episode>` (TTL 3600 s, not modelled). -/
def getSeriesStreams (cache : StreamCache) (imdbId season episode : String)
    (metadata : Metadata) (extractResult : StreamMap) : RequestOutcome :=
  let cacheKey := "series:" ++ imdbId ++ ":" ++ season ++ ":" ++ episode
  match List.lookup cacheKey cache with
  | some cached =>
    ⟨formatStreams (some cached) metadata (some season) (some episode), false, cache⟩
  | none =>
    ⟨formatStreams (some extractResult) metadata (some season) (some episode), true,
      if extractResult.length > 0 then cacheSet cache cacheKey extractResult else cache⟩

/-- Claim C8: when the request key is in the Result Cache, the handler
formats the cached map, invokes no extraction task, and leaves the cache
unchanged; the output does not depend on what the extractor would have
produced, so a repeated request returns identical output. -/
theorem C8_cache_hit_skips_extraction
    (cache : StreamCache) (imdbId season episode : String) (metadata : Metadata)
    (m : StreamMap) (r1 r2 : StreamMap) :
    (List.lookup ("movie:" ++ imdbId) cache = some m →
      getMovieStreams cache imdbId metadata r1
        = ⟨formatStreams (some m) metadata none none, false, cache⟩ ∧
      getMovieStreams cache imdbId metadata r1
        = getMovieStreams cache imdbId metadata r2) ∧
    (List.lookup ("series:" ++ imdbId ++ ":" ++ season ++ ":" ++ episode) cache
        = some m →
      getSeriesStreams cache imdbId season episode metadata r1
        = ⟨formatStreams (some m) metadata (some season) (some episode), false, cache⟩ ∧
      getSeriesStreams cache imdbId season episode metadata r1
        = getSeriesStreams cache imdbId season episode metadata r2) := by
  constructor
  · intro h
    constructor <;> simp [getMovieStreams, h]
  · intro h
    constructor <;> simp [getSeriesStreams, h]

/-- A concrete populated result cache for the `C8` witness. -/
def sampleCache : StreamCache :=
  [("movie:tt0111161", [("vidfast 1080p", "https://v.test/a.m3u8")]),
   ("series:tt0903747:1:1", [("wooflix 720p", "https://w.test/b.m3u8")])]

/-- Witness for `C8_cache_hit_skips_extraction` on `sampleCache`, both
lookup hypotheses discharged by evaluation. -/
theorem C8_cache_hit_skips_extraction_witness :
    getMovieStreams sampleCache "tt0111161" ⟨none, none⟩ [("x", "y")]
      = ⟨formatStreams (some [("vidfast 1080p", "https://v.test/a.m3u8")])
          ⟨none, none⟩ none none, false, sampleCache⟩ ∧
    getSeriesStreams sampleCache "tt0903747" "1" "1" ⟨none, none⟩ [("x", "y")]
      = ⟨formatStreams (some [("wooflix 720p", "https://w.test/b.m3u8")])
          ⟨none, none⟩ (some "1") (some "1"), false, sampleCache⟩ :=
  ⟨((C8_cache_hit_skips_extraction sampleCache "tt0111161" "1" "1" ⟨none, none⟩
      [("vidfast 1080p", "https://v.test/a.m3u8")] [("x", "y")] [("x", "y")]).1
      (by decide)).1,
   ((C8_cache_hit_skips_extraction sampleCache "tt0903747" "1" "1" ⟨none, none⟩
      [("wooflix 720p", "https://w.test/b.m3u8")] [("x", "y")] [("x", "y")]).2
      (by decide)).1⟩

/-- Scheduler state of one aggregation run, for the settle-wait claim.
`running` holds tasks whose extraction promise has not settled;
`children` holds manifest resolutions that have been scheduled (the
`setImmediate` of unified-extractor.js line 191) but whose parse has not
yet completed; `returned` is set once `extractStreamsProgressively` has
returned; `mergesAfterReturn` counts collector merges applied after that
return. -/
structure AggState where
  running : List String
  children : List String
  returned : Bool
  mergesAfterReturn : Nat
deriving Repr, DecidableEq

/-- Events of the single-threaded cooperative schedule of one
aggregation run. -/
inductive AggEvent where
  | detect (t : String)
  | settleTask (t : String)
  | aggReturn
  | childMerge (t : String)
deriving Repr, DecidableEq

/-- Guard of each event, conservative with respect to the code:

* `detect t` — the page request handler of task `t` sees an `.m3u8` URL
  and schedules the parse via `setImmediate`
  (unified-extractor.js lines 166-211); only while `t` is still running
  and the aggregator has not returned.
* `settleTask t` — the extraction promise of `t` settles
  (return at unified-extractor.js line 264, or the timeout race of
  index.js lines 88-94). The return path (lines 242-264) never awaits
  the `setImmediate` callback, so this guard does not require the
  children of `t` to have completed.
* `aggReturn` — `extractStreamsProgressively` returns (index.js line
  144), only after `Promise.allSettled` (line 119) has seen every task
  settle.
* `childMerge t` — the scheduled callback's awaited fetch completes and
  `progressCollector.add` merges (unified-extractor.js lines 192-210);
  being unawaited, it may run on any later tick, including after the
  aggregator returned. -/
def stepOk (s : AggState) : AggEvent → Bool
  | .detect t => s.running.contains t && !s.returned
  | .settleTask t => s.running.contains t
  | .aggReturn => !s.returned && s.running.isEmpty
  | .childMerge t => s.children.contains t

/-- Effect of each event on the scheduler state. -/
def applyEvent (s : AggState) : AggEvent → AggState
  | .detect t => { s with children := t :: s.children }
  | .settleTask t => { s with running := s.running.erase t }
  | .aggReturn => { s with returned := true }
  | .childMerge t =>
    { s with
      children := s.children.erase t
      mergesAfterReturn := s.mergesAfterReturn + (if s.returned then 1 else 0) }

/-- Run a candidate schedule: `some` final state when every event's
guard held in sequence, `none` otherwise. -/
def runTrace (s : AggState) : List AggEvent → Option AggState
  | [] => some s
  | e :: es => if stepOk s e then runTrace (applyEvent s e) es else none

/-- Initial scheduler state of a run over the given eligible tasks. -/
def initState (tasks : List String) : AggState := ⟨tasks, [], false, 0⟩

/-- Claim C1 failing schedule: with the single eligible provider
`vidlink`, the schedule "detect `.m3u8`, task settles, aggregator
returns, manifest resolution completes and merges" is admitted by the
code's scheduling rules and performs one merge after the aggregator has
returned — the settle-wait does not cover the `setImmediate`-scheduled
manifest resolution, so a resolution can still be merging (into the very
map already handed to the caller) after its owning task was counted as
settled. -/
theorem C1_merge_after_settled_task :
    runTrace (initState ["vidlink"])
        [.detect "vidlink", .settleTask "vidlink", .aggReturn, .childMerge "vidlink"]
      = some ⟨[], [], true, 1⟩ ∧
    (⟨[], [], true, 1⟩ : AggState).returned = true ∧
    (⟨[], [], true, 1⟩ : AggState).mergesAfterReturn > 0 := by
  refine ⟨by decide, rfl, by decide⟩

end ByteWatch
